import Mathlib

/-!
Verification of the Challenge Lifecycle & Progress Engine of the
health-tracking client (file `frontend/app/(tabs)/challenges.tsx`).

The TypeScript component is shallowly embedded:
* JavaScript numbers are modelled by `JSNum` (rationals plus `NaN` and the
  two infinities; IEEE rounding and signed zero are abstracted away, which
  is exact on the integer-valued inputs the component receives);
* React state updates are modelled as pure functions from a `ClientState`
  to a `ClientState`, with the outcome of each backend call passed in as an
  explicit value (the component never mutates challenge data except through
  these handlers);
* the JSX produced by `renderChallenge` is modelled as a record of the
  display-relevant values it feeds to the view components; `undefined`
  values forwarded to a component become `Option.none`;
* dates are carried as epoch milliseconds (`ℤ`).
-/

/-- A JavaScript number: a rational, `NaN`, or an infinity.  Signed zero is
identified with zero and rounding is ignored. -/
inductive JSNum where
  | nan : JSNum
  | posInf : JSNum
  | negInf : JSNum
  | num : ℚ → JSNum
deriving DecidableEq

namespace JSNum

/-- JavaScript division, including division by zero
(`0/0 = NaN`, `x/0 = ±Infinity` for `x ≠ 0`). -/
def div : JSNum → JSNum → JSNum
  | .nan, _ => .nan
  | _, .nan => .nan
  | .posInf, .posInf => .nan
  | .posInf, .negInf => .nan
  | .negInf, .posInf => .nan
  | .negInf, .negInf => .nan
  | .posInf, .num b => if 0 ≤ b then .posInf else .negInf
  | .negInf, .num b => if 0 ≤ b then .negInf else .posInf
  | .num _, .posInf => .num 0
  | .num _, .negInf => .num 0
  | .num a, .num b =>
      if b = 0 then
        if a = 0 then .nan else if 0 < a then .posInf else .negInf
      else .num (a / b)

/-- JavaScript multiplication (`Infinity * 0 = NaN`). -/
def mul : JSNum → JSNum → JSNum
  | .nan, _ => .nan
  | _, .nan => .nan
  | .posInf, .posInf => .posInf
  | .posInf, .negInf => .negInf
  | .negInf, .posInf => .negInf
  | .negInf, .negInf => .posInf
  | .posInf, .num b => if b = 0 then .nan else if 0 < b then .posInf else .negInf
  | .num a, .posInf => if a = 0 then .nan else if 0 < a then .posInf else .negInf
  | .negInf, .num b => if b = 0 then .nan else if 0 < b then .negInf else .posInf
  | .num a, .negInf => if a = 0 then .nan else if 0 < a then .negInf else .posInf
  | .num a, .num b => .num (a * b)

end JSNum

/-- The progress derivation of `renderChallenge` (`challenges.tsx` line 167):
`(challenge.completed_days / challenge.duration_days) * 100`.  The division
is unguarded, exactly as in the source. -/
def progressPercent (completed_days duration_days : ℚ) : JSNum :=
  JSNum.mul (JSNum.div (JSNum.num completed_days) (JSNum.num duration_days)) (JSNum.num 100)

/-- Number of milliseconds in a day, used by date-fns. -/
def msPerDay : ℤ := 86400000

/-- `differenceInDays` from the date-fns library, applied by `renderChallenge`
(`challenges.tsx` line 168) to `(end_date, now)`: the number of whole days
between the two instants (epoch milliseconds), fractional days truncated
toward zero.  Time-zone/DST adjustment is abstracted away. -/
def differenceInDays (laterMs earlierMs : ℤ) : ℤ :=
  if earlierMs ≤ laterMs then (laterMs - earlierMs) / msPerDay
  else -((earlierMs - laterMs) / msPerDay)

/-- The `Challenge` interface of `challenges.tsx` (lines 22-34), with dates
as epoch milliseconds and numbers as rationals. -/
structure Challenge where
  id : String
  challenge_type : String
  title : String
  description : String
  duration_days : ℚ
  start_date : ℤ
  end_date : ℤ
  completed_days : ℚ
  is_active : Bool
  is_completed : Bool
  badges : List String
deriving DecidableEq

/-- One entry of the static `challengeTemplates` catalog
(`challenges.tsx` lines 36-77). -/
structure ChallengeTemplate where
  type : String
  title : String
  description : String
  duration : ℚ
  icon : String
  color : String
deriving DecidableEq

/-- The static challenge catalog (`challenges.tsx` lines 36-77). -/
def challengeTemplates : List ChallengeTemplate :=
  [ { type := "hydration", title := "3-Day Hydration Hustle",
      description := "Drink 8 glasses of water daily", duration := 3,
      icon := "water", color := "#06B6D4" },
    { type := "no_sugar", title := "No Sugar Week",
      description := "Avoid added sugars for 7 days", duration := 7,
      icon := "close-circle", color := "#EF4444" },
    { type := "mindful_morning", title := "Mindful Morning Challenge",
      description := "10 minutes of meditation each morning", duration := 7,
      icon := "sunny", color := "#F59E0B" },
    { type := "exercise", title := "30-Day Fitness Journey",
      description := "30 minutes of exercise daily", duration := 30,
      icon := "fitness", color := "#10B981" },
    { type := "sleep", title := "Sleep Master Challenge",
      description := "8 hours of sleep for 14 days", duration := 14,
      icon := "moon", color := "#6366F1" } ]

/-- Display metadata of one badge (`challenges.tsx` lines 79-83). -/
structure BadgeInfo where
  label : String
  icon : String
  color : String
deriving DecidableEq

/-- The static `badgeInfo` record (`challenges.tsx` lines 79-83), as a lookup
returning `none` for identifiers absent from the registry (a JavaScript
record access yielding `undefined`). -/
def badgeInfo : String → Option BadgeInfo
  | "3_day_streak" => some { label := "3 Day Streak", icon := "flame", color := "#F59E0B" }
  | "week_warrior" => some { label := "Week Warrior", icon := "trophy", color := "#EF4444" }
  | "challenge_completed" => some { label := "Champion", icon := "ribbon", color := "#6366F1" }
  | _ => none

/-- JavaScript `x || fallback` where `x` is a possibly-`undefined` string:
the fallback is used when `x` is `undefined` or the empty string. -/
def jsOrStr (x : Option String) (fallback : String) : String :=
  match x with
  | none => fallback
  | some s => if s = "" then fallback else s

/-- The whitespace characters stripped by `String.prototype.trim`
(restricted to the ASCII ones, which cover the inputs of interest). -/
def isJsWhitespace (c : Char) : Bool :=
  c = ' ' || c = '\t' || c = '\n' || c = '\r'

/-- JavaScript `String.prototype.trim`: strip whitespace at both ends. -/
def jsTrim (s : String) : String :=
  ⟨((s.data.dropWhile isJsWhitespace).reverse.dropWhile isJsWhitespace).reverse⟩

/-- The notes value placed in the check-in request body
(`challenges.tsx` line 144): `checkInNotes.trim() || undefined`. -/
def requestNotes (checkInNotes : String) : Option String :=
  if jsTrim checkInNotes = "" then none else some (jsTrim checkInNotes)

/-- Body of `POST /api/challenges/checkin` (`challenges.tsx` lines 142-145). -/
structure CheckInRequest where
  challenge_id : String
  notes : Option String
deriving DecidableEq

/-- The request body `handleCheckIn` builds for the selected challenge
(`challenges.tsx` lines 142-145). -/
def buildCheckInRequest (selected : Challenge) (checkInNotes : String) : CheckInRequest :=
  { challenge_id := selected.id, notes := requestNotes checkInNotes }

/-- The fields of a successful check-in response consumed by `handleCheckIn`
(`challenges.tsx` lines 153-157). -/
structure CheckInResponse where
  ai_feedback : String
  completed_days : ℚ
  badges : List String
deriving DecidableEq

/-- The condition guarding the new-badge text in the success alert
(`challenges.tsx` line 155): `response.data.badges.length > 0`. -/
def newBadgeSignal (r : CheckInResponse) : Bool :=
  decide (0 < r.badges.length)

/-- Stated from the spec, for comparison with the code: the badge delta as
the set difference (new badge set) minus (old badge set).  The code of
`handleCheckIn` computes no such difference. -/
def specBadgeDelta (newBadges oldBadges : List String) : List String :=
  newBadges.filter fun b => !(oldBadges.contains b)

/-- One `Alert.alert` call surfaced to the user. -/
inductive AlertMsg where
  | checkInSuccess (feedback : String) (completedDays : ℚ) (newBadges : Bool)
  | challengeStarted
  | errorAlert (message : String)
deriving DecidableEq

/-- The React state of the `Challenges` component (`challenges.tsx`
lines 87-93), extended with the observable effect channels: alerts shown,
console log entries, and whether a list reload was triggered. -/
structure ClientState where
  challenges : List Challenge
  isLoading : Bool
  modalVisible : Bool
  checkInModal : Bool
  selectedChallenge : Option Challenge
  checkInNotes : String
  isSubmitting : Bool
  alerts : List AlertMsg
  consoleErrors : List String
  reloadRequested : Bool
deriving DecidableEq

/-- The initial component state (`challenges.tsx` lines 87-93). -/
def initialClientState : ClientState :=
  { challenges := [], isLoading := true, modalVisible := false, checkInModal := false,
    selectedChallenge := none, checkInNotes := "", isSubmitting := false,
    alerts := [], consoleErrors := [], reloadRequested := false }

/-- Outcome of the `GET /api/challenges/active` request. -/
inductive LoadOutcome where
  | success (challenges : List Challenge)
  | failure (message : String)
deriving DecidableEq

/-- `loadChallenges` (`challenges.tsx` lines 99-110): on success the list is
replaced; on failure the error is logged to the console only; in both cases
`isLoading` is cleared. -/
def loadChallenges (s : ClientState) : LoadOutcome → ClientState
  | .success cs => { s with challenges := cs, isLoading := false }
  | .failure m =>
      { s with consoleErrors := s.consoleErrors ++ ["Error loading challenges: " ++ m],
               isLoading := false }

/-- Outcome of the `POST /api/challenges/create` request; a failure carries
the optional `error.response.data.detail` string. -/
inductive CreateOutcome where
  | success
  | failure (detail : Option String)
deriving DecidableEq

/-- `startChallenge` (`challenges.tsx` lines 112-133), viewed at the moment
its request settles: the `finally` clause clears `isSubmitting`; success
closes the modal, triggers a reload and alerts; failure alerts with the
detail string or the generic message. -/
def startChallenge (s : ClientState) : CreateOutcome → ClientState
  | .success =>
      { s with isSubmitting := false, modalVisible := false, reloadRequested := true,
               alerts := s.alerts ++ [.challengeStarted] }
  | .failure d =>
      { s with isSubmitting := false,
               alerts := s.alerts ++ [.errorAlert (jsOrStr d "Failed to start challenge")] }

/-- Outcome of the `POST /api/challenges/checkin` request. -/
inductive CheckInOutcome where
  | success (r : CheckInResponse)
  | failure (detail : Option String)
deriving DecidableEq

/-- `handleCheckIn` (`challenges.tsx` lines 135-163), viewed at the moment
its request settles.  With no selected challenge the handler returns before
doing anything.  On success: close the modal, clear the notes, trigger a
reload, and alert with the feedback, the new completed-day count and the
new-badge flag.  On failure: alert with the detail string or the generic
message.  The `finally` clause clears `isSubmitting` on both paths. -/
def handleCheckIn (s : ClientState) (outcome : CheckInOutcome) : ClientState :=
  match s.selectedChallenge with
  | none => s
  | some _ =>
    match outcome with
    | .success r =>
        { s with isSubmitting := false, checkInModal := false, checkInNotes := "",
                 reloadRequested := true,
                 alerts := s.alerts ++
                   [.checkInSuccess r.ai_feedback r.completed_days (newBadgeSignal r)] }
    | .failure d =>
        { s with isSubmitting := false,
                 alerts := s.alerts ++ [.errorAlert (jsOrStr d "Failed to check in")] }

/-- The display values a badge chip receives (`challenges.tsx`
lines 190-198); fields are `none` where the source forwards `undefined`. -/
structure RenderedBadge where
  key : String
  icon : Option String
  color : Option String
  label : Option String
deriving DecidableEq

/-- Rendering of one badge chip (`challenges.tsx` lines 190-198):
`badgeInfo[badge]` is looked up and its fields forwarded via `?.`. -/
def renderBadge (badge : String) : RenderedBadge :=
  { key := badge
    icon := (badgeInfo badge).map BadgeInfo.icon
    color := (badgeInfo badge).map BadgeInfo.color
    label := (badgeInfo badge).map BadgeInfo.label }

/-- The display values of one challenge card (`challenges.tsx`
lines 165-223). -/
structure RenderedCard where
  key : String
  iconBgColor : String
  iconName : String
  iconColor : Option String
  title : String
  description : String
  progressWidth : JSNum
  progressFillColor : Option String
  daysLeft : ℤ
  badges : List RenderedBadge
  hasCheckInButton : Bool
  hasCompletedBanner : Bool
deriving DecidableEq

/-- `renderChallenge` (`challenges.tsx` lines 165-223).  The template lookup
is `challengeTemplates.find`, the icon falls back to `"star"` via `||`, the
background color is the JavaScript string coercion `template?.color + "20"`
(the string "undefined" when the lookup fails), the check-in button is
rendered iff `!challenge.is_completed`, and the completed banner iff
`challenge.is_completed`. -/
def renderChallenge (nowMs : ℤ) (challenge : Challenge) : RenderedCard :=
  let template := challengeTemplates.find? fun t => t.type == challenge.challenge_type
  let progress := progressPercent challenge.completed_days challenge.duration_days
  let daysLeft := differenceInDays challenge.end_date nowMs
  { key := challenge.id
    iconBgColor := (match template with
      | some t => t.color
      | none => "undefined") ++ "20"
    iconName := jsOrStr (template.map ChallengeTemplate.icon) "star"
    iconColor := template.map ChallengeTemplate.color
    title := challenge.title
    description := challenge.description
    progressWidth := progress
    progressFillColor := template.map ChallengeTemplate.color
    daysLeft := daysLeft
    badges := challenge.badges.map renderBadge
    hasCheckInButton := !challenge.is_completed
    hasCompletedBanner := challenge.is_completed }

/-- The challenge list as rendered (`challenges.tsx` line 253):
every challenge of the store is mapped through `renderChallenge`. -/
def renderChallengeList (nowMs : ℤ) (challenges : List Challenge) : List RenderedCard :=
  challenges.map (renderChallenge nowMs)

/-- The two kinds of mutating request the screen can have in flight. -/
inductive ReqKind where
  | createReq
  | checkinReq
deriving DecidableEq

/-- The submission-gating state: the `isSubmitting` flag
(`challenges.tsx` line 93) plus the multiset of mutating requests
currently in flight (an environment observation, not a React state). -/
structure SubmitState where
  isSubmitting : Bool
  inFlight : List ReqKind
deriving DecidableEq

/-- The template cards are disabled while submitting
(`challenges.tsx` line 274: `disabled={isSubmitting}`). -/
def templateControlDisabled (s : SubmitState) : Bool := s.isSubmitting

/-- The check-in submit button is disabled while submitting
(`challenges.tsx` line 318: `disabled={isSubmitting}`). -/
def submitControlDisabled (s : SubmitState) : Bool := s.isSubmitting

/-- UI events relevant to the submission gate: tapping a template card
(starts `startChallenge`), tapping the check-in submit button (starts
`handleCheckIn`), and an in-flight request settling with success or
failure (the `finally` clauses of both handlers). -/
inductive UIEvent where
  | pressTemplate
  | pressCheckInSubmit
  | settle (kind : ReqKind) (ok : Bool)
deriving DecidableEq

/-- One step of the submission gate.  A press on a disabled control does
nothing; an enabled press sets `isSubmitting` and puts one request in
flight; a settle event (for a request actually in flight) removes it and
clears `isSubmitting` via the handler's `finally`, for success and failure
alike. -/
def uiStep (s : SubmitState) : UIEvent → SubmitState
  | .pressTemplate =>
      if templateControlDisabled s then s
      else { isSubmitting := true, inFlight := s.inFlight ++ [.createReq] }
  | .pressCheckInSubmit =>
      if submitControlDisabled s then s
      else { isSubmitting := true, inFlight := s.inFlight ++ [.checkinReq] }
  | .settle kind _ =>
      if kind ∈ s.inFlight then
        { isSubmitting := false, inFlight := s.inFlight.erase kind }
      else s

/-- The initial submission-gate state: not submitting, nothing in flight. -/
def initSubmitState : SubmitState := { isSubmitting := false, inFlight := [] }

/-- The submission-gate state reached after a sequence of UI events. -/
def runEvents (events : List UIEvent) : SubmitState :=
  events.foldl uiStep initSubmitState

/-- Invariant of the submission gate: the flag is clear only when nothing
is in flight, and at most one request is ever in flight. -/
def SubmitInv (s : SubmitState) : Prop :=
  (s.isSubmitting = false → s.inFlight = []) ∧ s.inFlight.length ≤ 1

/-- A challenge of the catalog's `hydration` template, one day in. -/
def sampleChallenge : Challenge :=
  { id := "c1", challenge_type := "hydration", title := "3-Day Hydration Hustle",
    description := "Drink 8 glasses of water daily", duration_days := 3,
    start_date := 0, end_date := 259200000, completed_days := 1,
    is_active := true, is_completed := false, badges := [] }

/-- A finished challenge (`is_completed = true`). -/
def completedChallenge : Challenge :=
  { id := "c2", challenge_type := "no_sugar", title := "No Sugar Week",
    description := "Avoid added sugars for 7 days", duration_days := 7,
    start_date := 0, end_date := 604800000, completed_days := 7,
    is_active := false, is_completed := true, badges := ["challenge_completed"] }

/-- A challenge whose type is not in the catalog and whose badge is not in
the registry. -/
def unknownChallenge : Challenge :=
  { id := "c3", challenge_type := "yoga", title := "Yoga Days",
    description := "Stretch daily", duration_days := 5,
    start_date := 0, end_date := 432000000, completed_days := 2,
    is_active := true, is_completed := false, badges := ["mystery_badge"] }

/-- A challenge that already carries the 3-day-streak badge. -/
def streakChallenge : Challenge :=
  { id := "c4", challenge_type := "exercise", title := "30-Day Fitness Journey",
    description := "30 minutes of exercise daily", duration_days := 30,
    start_date := 0, end_date := 2592000000, completed_days := 4,
    is_active := true, is_completed := false, badges := ["3_day_streak"] }

/-- A lapsed challenge: its end date is the epoch instant. -/
def lapsedChallenge : Challenge :=
  { id := "c5", challenge_type := "sleep", title := "Sleep Master Challenge",
    description := "8 hours of sleep for 14 days", duration_days := 14,
    start_date := -1209600000, end_date := 0, completed_days := 5,
    is_active := true, is_completed := false, badges := [] }

/-- A state with one loaded challenge and the check-in modal open on it. -/
def checkInState : ClientState :=
  { initialClientState with
    challenges := [sampleChallenge]
    isLoading := false
    checkInModal := true
    selectedChallenge := some sampleChallenge }

/-- A state in which the list has been loaded. -/
def loadedState : ClientState :=
  { initialClientState with challenges := [sampleChallenge], isLoading := false }

/-- A state with the check-in modal open on `streakChallenge`. -/
def streakState : ClientState :=
  { initialClientState with
    challenges := [streakChallenge]
    isLoading := false
    checkInModal := true
    selectedChallenge := some streakChallenge }

/-- A check-in response repeating the challenge's existing badge set. -/
def streakResponse : CheckInResponse :=
  { ai_feedback := "Nice work", completed_days := 5, badges := ["3_day_streak"] }

/-- A check-in response carrying a genuinely new badge. -/
def sampleResponse : CheckInResponse :=
  { ai_feedback := "Great", completed_days := 2, badges := ["week_warrior"] }

/-- C1: for `durationDays > 0` and `0 ≤ completedDays ≤ durationDays`, the
rendered progress equals `100 * completedDays / durationDays`, lies in
`[0, 100]`, is monotone in `completedDays`, is `0` at `0` and `100` at
`durationDays`. -/
theorem progressPercent_correct (c d : ℚ) (hd : 0 < d) (hc0 : 0 ≤ c) (hcd : c ≤ d) :
    progressPercent c d = JSNum.num (100 * c / d) ∧
    0 ≤ 100 * c / d ∧
    100 * c / d ≤ 100 ∧
    (∀ c₁ c₂ : ℚ, c₁ ≤ c₂ → 100 * c₁ / d ≤ 100 * c₂ / d) ∧
    (c = 0 → progressPercent c d = JSNum.num 0) ∧
    (c = d → progressPercent c d = JSNum.num 100) := by
  have hdne : d ≠ 0 := ne_of_gt hd
  have hval : progressPercent c d = JSNum.num (100 * c / d) := by
    simp only [progressPercent, JSNum.div, JSNum.mul, if_neg hdne]
    congr 1
    field_simp
    ring
  refine ⟨hval, ?_, ?_, ?_, ?_, ?_⟩
  · positivity
  · rw [div_le_iff₀ hd]
    nlinarith
  · intro c₁ c₂ h12
    gcongr
  · intro hc
    subst hc
    simpa using hval
  · intro hc
    subst hc
    rw [hval]
    congr 1
    field_simp

/-- Witness for `progressPercent_correct`, at one completed day of three
(the spec's scenario `progressPercent(1,3)`). -/
theorem progressPercent_correct_witness :
    (0 : ℚ) < 3 ∧ (0 : ℚ) ≤ 1 ∧ (1 : ℚ) ≤ 3 ∧
    (progressPercent 1 3 = JSNum.num (100 * 1 / 3) ∧
     0 ≤ (100 : ℚ) * 1 / 3 ∧
     (100 : ℚ) * 1 / 3 ≤ 100 ∧
     (∀ c₁ c₂ : ℚ, c₁ ≤ c₂ → 100 * c₁ / 3 ≤ 100 * c₂ / 3) ∧
     ((1 : ℚ) = 0 → progressPercent 1 3 = JSNum.num 0) ∧
     ((1 : ℚ) = 3 → progressPercent 1 3 = JSNum.num 100)) :=
  ⟨by norm_num, by norm_num, by norm_num,
   progressPercent_correct 1 3 (by norm_num) (by norm_num) (by norm_num)⟩

/-- C3 counterexample: with `durationDays = 0` the unguarded division makes
the rendered progress `NaN` (at `completedDays = 0`) or `Infinity` (at
`completedDays = 1`); it is not the claimed 0%. -/
theorem progressPercent_zero_duration_counterexample :
    progressPercent 0 0 = JSNum.nan ∧
    progressPercent 0 0 ≠ JSNum.num 0 ∧
    progressPercent 1 0 = JSNum.posInf := by
  decide

/-- C3 amended: for `durationDays = 0` the derivation performs the division
unguarded and yields `NaN` when `completedDays = 0`, `+Infinity` when
`completedDays > 0`, and `-Infinity` otherwise — never a 0% fallback. -/
theorem progressPercent_zero_duration (c : ℚ) :
    progressPercent c 0 =
      (if c = 0 then JSNum.nan else if 0 < c then JSNum.posInf else JSNum.negInf) := by
  by_cases hc : c = 0
  · simp [progressPercent, JSNum.div, JSNum.mul, hc]
  · by_cases hp : 0 < c
    · simp [progressPercent, JSNum.div, JSNum.mul, hc, hp]
    · simp [progressPercent, JSNum.div, JSNum.mul, hc, hp]

/-- C9 counterexample: an end date one hour in the past (end `0`, now
`3600000` ms) gives `differenceInDays = 0`, not a negative value, because
fractional days are truncated toward zero. -/
theorem daysRemaining_past_counterexample :
    (0 : ℤ) < 3600000 - 0 ∧ differenceInDays 0 3600000 = 0 := by
  decide

/-- C9 amended: the days-remaining value of a rendered card is the
whole-day difference truncated toward zero, and once the end date is at
least one whole day in the past it is negative — never clamped to zero. -/
theorem daysRemaining_overdue (nowMs : ℤ) (ch : Challenge)
    (h : ch.end_date + msPerDay ≤ nowMs) :
    (renderChallenge nowMs ch).daysLeft = differenceInDays ch.end_date nowMs ∧
    (renderChallenge nowMs ch).daysLeft < 0 := by
  refine ⟨rfl, ?_⟩
  show differenceInDays ch.end_date nowMs < 0
  have hlt : ¬ (nowMs ≤ ch.end_date) := by
    simp only [msPerDay] at h
    omega
  rw [differenceInDays, if_neg hlt]
  have h1 : (1 : ℤ) ≤ (nowMs - ch.end_date) / msPerDay := by
    rw [Int.le_ediv_iff_mul_le (by decide)]
    simp only [msPerDay] at h ⊢
    omega
  omega

/-- Witness for `daysRemaining_overdue`: the lapsed challenge viewed two
days after its end date shows a negative days-remaining value. -/
theorem daysRemaining_overdue_witness :
    lapsedChallenge.end_date + msPerDay ≤ 172800000 ∧
    ((renderChallenge 172800000 lapsedChallenge).daysLeft =
        differenceInDays lapsedChallenge.end_date 172800000 ∧
     (renderChallenge 172800000 lapsedChallenge).daysLeft < 0) :=
  ⟨by decide, daysRemaining_overdue 172800000 lapsedChallenge (by decide)⟩

/-- C2 counterexample: a check-in on `streakChallenge` whose response
repeats the existing badge array has an empty badge delta, yet the success
alert still carries the new-badge signal, because the code tests
`response.data.badges.length > 0`, not a set difference. -/
theorem newBadgeSignal_counterexample :
    specBadgeDelta streakResponse.badges streakChallenge.badges = [] ∧
    newBadgeSignal streakResponse = true ∧
    (handleCheckIn streakState (.success streakResponse)).alerts =
      streakState.alerts ++ [.checkInSuccess "Nice work" 5 true] := by
  decide

/-- C2 amended: the new-badge signal attached to the success alert is true
iff the returned badges array is non-empty; no set difference against the
pre-check-in badge set is computed, so a response repeating the existing
badges still produces the signal. -/
theorem newBadgeSignal_iff_nonempty (r : CheckInResponse) :
    (newBadgeSignal r = true ↔ r.badges ≠ []) ∧
    (∀ s ch, s.selectedChallenge = some ch →
      (handleCheckIn s (.success r)).alerts =
        s.alerts ++ [.checkInSuccess r.ai_feedback r.completed_days (newBadgeSignal r)]) := by
  constructor
  · simp [newBadgeSignal, List.length_pos]
  · intro s ch h
    simp [handleCheckIn, h]

/-- Witness for `newBadgeSignal_iff_nonempty`, at a response carrying one
genuinely new badge. -/
theorem newBadgeSignal_iff_nonempty_witness :
    checkInState.selectedChallenge = some sampleChallenge ∧
    (newBadgeSignal sampleResponse = true ↔ sampleResponse.badges ≠ []) ∧
    (handleCheckIn checkInState (.success sampleResponse)).alerts =
      checkInState.alerts ++
        [.checkInSuccess sampleResponse.ai_feedback sampleResponse.completed_days
          (newBadgeSignal sampleResponse)] :=
  ⟨rfl, (newBadgeSignal_iff_nonempty sampleResponse).1,
   (newBadgeSignal_iff_nonempty sampleResponse).2 checkInState sampleChallenge rfl⟩

/-- C4: a failed check-in leaves the whole client state unchanged except
that the submitting flag is cleared and an error alert (the backend detail
string, else the generic message) is appended; in particular the challenge
list, the selected challenge, the notes, the modal, and hence the displayed
progress of the selected challenge are untouched, and the action can be
re-invoked. -/
theorem handleCheckIn_failure_no_mutation (s : ClientState) (d : Option String)
    (ch : Challenge) (h : s.selectedChallenge = some ch) :
    handleCheckIn s (.failure d) =
      { s with isSubmitting := false,
               alerts := s.alerts ++ [.errorAlert (jsOrStr d "Failed to check in")] } := by
  simp [handleCheckIn, h]

/-- Witness for `handleCheckIn_failure_no_mutation`: a rejected check-in
("already checked in today") on `checkInState`. -/
theorem handleCheckIn_failure_no_mutation_witness :
    checkInState.selectedChallenge = some sampleChallenge ∧
    handleCheckIn checkInState (.failure (some "already checked in today")) =
      { checkInState with
        isSubmitting := false
        alerts := checkInState.alerts ++
          [.errorAlert (jsOrStr (some "already checked in today") "Failed to check in")] } :=
  ⟨rfl, handleCheckIn_failure_no_mutation checkInState (some "already checked in today")
    sampleChallenge rfl⟩

/-- C5 counterexample: a transport failure of the active-challenge load at
`loadedState` leaves the list untouched but surfaces no user-visible
message — the alert list stays empty; the error goes to the console only. -/
theorem loadChallenges_failure_counterexample :
    (loadChallenges loadedState (.failure "Network Error")).challenges =
      loadedState.challenges ∧
    (loadChallenges loadedState (.failure "Network Error")).alerts = [] ∧
    (loadChallenges loadedState (.failure "Network Error")).consoleErrors =
      ["Error loading challenges: Network Error"] := by
  decide

/-- C5 amended: on a transport failure of `loadChallenges` the prior
challenge list (and all other user-facing state) is left untouched and the
loading flag is cleared, but the error is only logged to the console; no
user-visible message is surfaced. -/
theorem loadChallenges_failure_preserves_list (s : ClientState) (m : String) :
    loadChallenges s (.failure m) =
      { s with isLoading := false,
               consoleErrors := s.consoleErrors ++ ["Error loading challenges: " ++ m] } := by
  rfl

/-- C6: a rendered card offers the check-in affordance iff the challenge is
not completed, shows the completed banner iff it is completed, and every
challenge of the store appears in the rendered list (completed ones
included). -/
theorem checkin_affordance_iff_not_completed (nowMs : ℤ) (ch : Challenge)
    (cs : List Challenge) (hmem : ch ∈ cs) :
    ((renderChallenge nowMs ch).hasCheckInButton = true ↔ ch.is_completed = false) ∧
    ((renderChallenge nowMs ch).hasCompletedBanner = true ↔ ch.is_completed = true) ∧
    renderChallenge nowMs ch ∈ renderChallengeList nowMs cs := by
  refine ⟨?_, Iff.rfl, List.mem_map_of_mem _ hmem⟩
  show (!ch.is_completed) = true ↔ ch.is_completed = false
  cases ch.is_completed <;> simp

/-- Witness for `checkin_affordance_iff_not_completed`: the completed
challenge in a singleton list shows the banner and no check-in button. -/
theorem checkin_affordance_iff_not_completed_witness :
    completedChallenge ∈ [completedChallenge] ∧
    (((renderChallenge 0 completedChallenge).hasCheckInButton = true ↔
        completedChallenge.is_completed = false) ∧
     ((renderChallenge 0 completedChallenge).hasCompletedBanner = true ↔
        completedChallenge.is_completed = true) ∧
     renderChallenge 0 completedChallenge ∈ renderChallengeList 0 [completedChallenge]) :=
  ⟨List.mem_singleton_self completedChallenge,
   checkin_affordance_iff_not_completed 0 completedChallenge [completedChallenge]
     (List.mem_singleton_self completedChallenge)⟩

/-- C7: the notes field of the check-in request is the trimmed input; it is
absent exactly when the trimmed input is empty, so an empty-string notes
value is never transmitted. -/
theorem checkin_notes_normalized (selected : Challenge) (input : String) :
    ((buildCheckInRequest selected input).notes = none ↔ jsTrim input = "") ∧
    (∀ t, (buildCheckInRequest selected input).notes = some t → t = jsTrim input) ∧
    (buildCheckInRequest selected input).notes ≠ some "" := by
  by_cases h : jsTrim input = ""
  · refine ⟨by simp [buildCheckInRequest, requestNotes, h], ?_, ?_⟩
    · intro t ht
      simp [buildCheckInRequest, requestNotes, h] at ht
    · simp [buildCheckInRequest, requestNotes, h]
  · refine ⟨by simp [buildCheckInRequest, requestNotes, h], ?_, ?_⟩
    · intro t ht
      simp only [buildCheckInRequest, requestNotes, if_neg h, Option.some.injEq] at ht
      exact ht.symm
    · simp only [buildCheckInRequest, requestNotes, if_neg h, ne_eq, Option.some.injEq]
      exact h

/-- Witness for `checkin_notes_normalized`, at an input with surrounding
whitespace. -/
theorem checkin_notes_normalized_witness :
    ((buildCheckInRequest sampleChallenge "  felt great  ").notes = none ↔
        jsTrim "  felt great  " = "") ∧
    (∀ t, (buildCheckInRequest sampleChallenge "  felt great  ").notes = some t →
        t = jsTrim "  felt great  ") ∧
    (buildCheckInRequest sampleChallenge "  felt great  ").notes ≠ some "" :=
  checkin_notes_normalized sampleChallenge "  felt great  "

/-- C8 counterexample: for the challenge with unknown type `"yoga"` and
unknown badge `"mystery_badge"`, rendering is total but only the icon falls
back to `"star"`: the icon color is absent (`undefined` forwarded), the
icon background is the coerced string `"undefined20"`, and the badge chip
has no fallback label, icon, or color at all. -/
theorem render_fallback_counterexample :
    (renderChallenge 0 unknownChallenge).iconName = "star" ∧
    (renderChallenge 0 unknownChallenge).iconColor = none ∧
    (renderChallenge 0 unknownChallenge).iconBgColor = "undefined20" ∧
    (renderChallenge 0 unknownChallenge).badges =
      [{ key := "mystery_badge", icon := none, color := none, label := none }] := by
  decide

/-- C8 amended: rendering a challenge with an unknown template type or an
unregistered badge identifier is total (the embedding is a total function —
the optional-chaining source never throws) and the template icon falls back
to `"star"`, but there is no neutral fallback for the rest: the template
color is absent, the icon background is the string `"undefined20"`, and an
unknown badge renders with absent label, icon and color. -/
theorem render_fallback_partial (nowMs : ℤ) (ch : Challenge) (b : String)
    (ht : (challengeTemplates.find? fun t => t.type == ch.challenge_type) = none)
    (hb : badgeInfo b = none) :
    (renderChallenge nowMs ch).iconName = "star" ∧
    (renderChallenge nowMs ch).iconColor = none ∧
    (renderChallenge nowMs ch).iconBgColor = "undefined20" ∧
    renderBadge b = { key := b, icon := none, color := none, label := none } := by
  refine ⟨?_, ?_, ?_, ?_⟩
  · simp [renderChallenge, ht, jsOrStr]
  · simp [renderChallenge, ht]
  · simp [renderChallenge, ht]
  · simp [renderBadge, hb]

/-- Witness for `render_fallback_partial`, at the unknown-type challenge
and the unregistered badge identifier `"mystery_badge"`. -/
theorem render_fallback_partial_witness :
    (challengeTemplates.find? fun t => t.type == unknownChallenge.challenge_type) = none ∧
    badgeInfo "mystery_badge" = none ∧
    ((renderChallenge 7 unknownChallenge).iconName = "star" ∧
     (renderChallenge 7 unknownChallenge).iconColor = none ∧
     (renderChallenge 7 unknownChallenge).iconBgColor = "undefined20" ∧
     renderBadge "mystery_badge" =
       { key := "mystery_badge", icon := none, color := none, label := none }) :=
  ⟨by decide, by decide,
   render_fallback_partial 7 unknownChallenge "mystery_badge" (by decide) (by decide)⟩

/-- The submission-gate invariant is preserved by every UI event. -/
theorem uiStep_preserves_inv (s : SubmitState) (e : UIEvent) (hs : SubmitInv s) :
    SubmitInv (uiStep s e) := by
  obtain ⟨h1, h2⟩ := hs
  cases e with
  | pressTemplate =>
    by_cases hb : s.isSubmitting = true
    · simp only [uiStep, templateControlDisabled, hb, if_true]
      exact ⟨h1, h2⟩
    · have hfalse : s.isSubmitting = false := by simpa using hb
      have hnil : s.inFlight = [] := h1 hfalse
      simp only [uiStep, templateControlDisabled, hfalse, Bool.false_eq_true, if_false]
      exact ⟨fun hc => Bool.noConfusion hc, by simp [hnil]⟩
  | pressCheckInSubmit =>
    by_cases hb : s.isSubmitting = true
    · simp only [uiStep, submitControlDisabled, hb, if_true]
      exact ⟨h1, h2⟩
    · have hfalse : s.isSubmitting = false := by simpa using hb
      have hnil : s.inFlight = [] := h1 hfalse
      simp only [uiStep, submitControlDisabled, hfalse, Bool.false_eq_true, if_false]
      exact ⟨fun hc => Bool.noConfusion hc, by simp [hnil]⟩
  | settle k ok =>
    by_cases hk : k ∈ s.inFlight
    · have hpos : 0 < s.inFlight.length := List.length_pos.mpr (List.ne_nil_of_mem hk)
      have hlen : s.inFlight.length = 1 := le_antisymm h2 hpos
      obtain ⟨a, ha⟩ := List.length_eq_one.mp hlen
      have hak : k = a := by
        rw [ha] at hk
        simpa using hk
      subst hak
      simp only [uiStep, if_pos hk]
      refine ⟨fun _ => ?_, ?_⟩
      · simp [ha]
      · simp [ha]
    · simp only [uiStep, if_neg hk]
      exact ⟨h1, h2⟩

/-- The submission-gate invariant holds in every reachable state. -/
theorem submitInv_runEvents (es : List UIEvent) : SubmitInv (runEvents es) := by
  have key : ∀ (l : List UIEvent) (s : SubmitState),
      SubmitInv s → SubmitInv (l.foldl uiStep s) := by
    intro l
    induction l with
    | nil => exact fun s hs => hs
    | cons e tl ih => exact fun s hs => ih (uiStep s e) (uiStep_preserves_inv s e hs)
  exact key es initSubmitState ⟨fun _ => rfl, by simp [initSubmitState]⟩

/-- C10: in every state reachable from the initial one, at most one
mutating request (create or check-in) is in flight and the shared
`isSubmitting` flag is clear only when nothing is in flight; in any state
satisfying the gate invariant with a request in flight, both the template
cards and the check-in submit button are disabled; and when the in-flight
request settles — successfully or not — the flag is reset. -/
theorem single_inflight_mutation (es : List UIEvent) (s : SubmitState)
    (k : ReqKind) (ok : Bool) (hs : SubmitInv s) (hk : k ∈ s.inFlight) :
    (runEvents es).inFlight.length ≤ 1 ∧
    ((runEvents es).isSubmitting = false → (runEvents es).inFlight = []) ∧
    templateControlDisabled s = true ∧
    submitControlDisabled s = true ∧
    (uiStep s (.settle k ok)).isSubmitting = false := by
  have hinv := submitInv_runEvents es
  have hsub : s.isSubmitting = true := by
    by_contra hb
    have hfalse : s.isSubmitting = false := by simpa using hb
    have hnil : s.inFlight = [] := hs.1 hfalse
    rw [hnil] at hk
    exact absurd hk (List.not_mem_nil k)
  refine ⟨hinv.2, hinv.1, hsub, hsub, ?_⟩
  simp only [uiStep, if_pos hk]

/-- Witness for `single_inflight_mutation`: a pending check-in blocks the
template controls, and a press-then-settle trace never has two requests in
flight. -/
theorem single_inflight_mutation_witness :
    SubmitInv { isSubmitting := true, inFlight := [ReqKind.checkinReq] } ∧
    ReqKind.checkinReq ∈
      ({ isSubmitting := true, inFlight := [ReqKind.checkinReq] } : SubmitState).inFlight ∧
    ((runEvents [.pressTemplate, .settle .createReq true]).inFlight.length ≤ 1 ∧
     ((runEvents [.pressTemplate, .settle .createReq true]).isSubmitting = false →
        (runEvents [.pressTemplate, .settle .createReq true]).inFlight = []) ∧
     templateControlDisabled { isSubmitting := true, inFlight := [ReqKind.checkinReq] } = true ∧
     submitControlDisabled { isSubmitting := true, inFlight := [ReqKind.checkinReq] } = true ∧
     (uiStep { isSubmitting := true, inFlight := [ReqKind.checkinReq] }
        (.settle ReqKind.checkinReq false)).isSubmitting = false) :=
  ⟨⟨fun hc => absurd hc (by decide), by decide⟩, by decide,
   single_inflight_mutation [.pressTemplate, .settle .createReq true]
     { isSubmitting := true, inFlight := [ReqKind.checkinReq] }
     ReqKind.checkinReq false
     ⟨fun hc => absurd hc (by decide), by decide⟩ (by decide)⟩
